import Mathlib

/-!
Verification development for the WhatsApp CRM ingestion pipeline
(src/lib/whatsapp/webhook-handler.ts and src/app/api/webhooks/whatsapp/route.ts),
shallow-embedded over an explicit relational store.

Modelling conventions:
* The relational store (Supabase/Postgres) is a record of row lists; uniqueness
  constraints from supabase/migrations/001_crm_schema.sql are enforced by the
  insert operations, which return an error value exactly as the Supabase client
  returns a per-query error object.
* TypeScript string-literal unions (statuses, roles, message types) are kept as
  strings, exactly as the source compares them with `===`.
* JavaScript truthiness of `string | null` values (`x || y`, `if (x)`) is
  modelled by `jsTruthy` and friends: `null` and the empty string are falsy.
* Wall-clock reads (`new Date()`), the `Math.random()` draw used by
  `generateProtocolNumber`, `process.env` and the outcome of the external media
  upload are inputs, collected in `WebhookEnv`.
* Row ids minted by the store (`gen_random_uuid()`) are modelled by a counter
  in the store state.
* Calls to the external WhatsApp API (`sendTextMessage`, `markAsRead`) are
  recorded as actions; `jsonb` blobs are modelled as association lists.
* The store enforces the constraints of 001_crm_schema.sql that any insert
  the handler issues can violate: the UNIQUE constraints on
  `crm_contacts (org_id, phone)`, `crm_conversations.protocol_number` and
  `crm_messages.whatsapp_message_id`, and the foreign key
  `crm_messages.sender_id REFERENCES crm_users(id)` — which the handler
  violates on every inbound message, since it passes the contact id there.
* The handler also issues inserts into `crm_protocol_log` and
  `crm_agent_activity_log` carrying `action`/`details` keys; those tables
  have no such columns (crm_protocol_log holds protocol metrics,
  crm_agent_activity_log has `metadata`), so the store rejects these writes,
  and since the handler never checks their results they are silent no-ops:
  the model accordingly leaves both tables unchanged at those points.
-/

namespace Crm

/-- JS truthiness of a `string | null` value: `null` and `""` are falsy. -/
def jsTruthy : Option String → Bool
  | some s => !s.isEmpty
  | none => false

/-- JS `x || null` on a `string | null` value. -/
def jsOrNull (x : Option String) : Option String :=
  if jsTruthy x then x else none

/-- JS `a || b` on `string | null` values. -/
def jsOr (a b : Option String) : Option String :=
  if jsTruthy a then a else b

-- ---------------------------------------------------------------------------
-- Row types (columns referenced by the webhook handler; see
-- src/types/database.ts and supabase/migrations/001_crm_schema.sql)
-- ---------------------------------------------------------------------------

structure ContactRow where
  id : String
  org_id : String
  phone : String
  name : Option String
  profile_picture_url : Option String
  created_at : Nat
  updated_at : Nat
deriving DecidableEq, Repr

structure ConversationRow where
  id : String
  org_id : String
  contact_id : String
  assigned_agent_id : Option String
  queue : Option String
  status : String
  is_bot_active : Bool
  current_flow_id : Option String
  tags : List String
  classification : Option String
  protocol_number : Option String
  last_message_at : Option Nat
  last_message_preview : Option String
  unread_count : Nat
  created_at : Nat
  updated_at : Nat
deriving DecidableEq, Repr

structure MessageRow where
  id : String
  conversation_id : String
  sender_type : String
  sender_id : Option String
  message_type : String
  content : Option String
  media_url : Option String
  media_mime_type : Option String
  media_filename : Option String
  whatsapp_message_id : Option String
  status : String
  error_message : Option String
  reply_to_message_id : Option String
deriving DecidableEq, Repr

structure CrmUserRow where
  id : String
  org_id : String
  display_name : String
  role : String
  queue : String
  status : String
  max_concurrent_chats : Nat
deriving DecidableEq, Repr

structure OrganizationRow where
  org_id : String
  name : String
  whatsapp_phone_number_id : Option String
  whatsapp_access_token : Option String
  auto_reply_message : Option String
deriving DecidableEq, Repr

/-- Columns of `crm_protocol_log` (001_crm_schema.sql:450-464): protocol
metrics only — there is no `action` and no `details` column, so the inserts
the webhook handler attempts against this table are rejected by the store. -/
structure ProtocolLogRow where
  id : String
  org_id : String
  conversation_id : Option String
  protocol_number : String
  agent_id : Option String
  contact_id : Option String
  opened_at : Nat
  closed_at : Option Nat
  first_response_at : Option Nat
  response_time_seconds : Option Nat
  resolution_time_seconds : Option Nat
  classification : Option String
  tags : List String
deriving DecidableEq, Repr

/-- Columns of `crm_agent_activity_log` (001_crm_schema.sql:469-483): it has
`metadata`, not the `details` column the webhook handler sends, so the
handler's insert against this table is rejected by the store. -/
structure ActivityLogRow where
  id : String
  org_id : String
  agent_id : String
  activity_type : String
  metadata : List (String × String)
  created_at : Nat
deriving DecidableEq, Repr

/-- The relational store: the CRM tables touched by the webhook handler,
plus the id-minting counter (`gen_random_uuid()` in the schema). -/
structure DB where
  contacts : List ContactRow
  conversations : List ConversationRow
  messages : List MessageRow
  users : List CrmUserRow
  protocolLog : List ProtocolLogRow
  activityLog : List ActivityLogRow
  nextId : Nat
deriving DecidableEq, Repr

def DB.empty : DB := ⟨[], [], [], [], [], [], 0⟩

/-- Fresh row id minted by the store. -/
def newRowId (n : Nat) : String := "row-" ++ toString n

-- ---------------------------------------------------------------------------
-- Provider (Meta Cloud API) webhook payload objects
-- ---------------------------------------------------------------------------

structure WAProfile where
  name : Option String
deriving DecidableEq, Repr

structure WAContact where
  wa_id : String
  profile : Option WAProfile
deriving DecidableEq, Repr

structure WAText where
  body : Option String
deriving DecidableEq, Repr

structure WAMedia where
  id : Option String
  mime_type : Option String
  caption : Option String
  filename : Option String
deriving DecidableEq, Repr

/-- Fields `latitude`/`longitude` are JSON numbers in the payload; they are modelled
by their JSON renderings, which is all `JSON.stringify` needs from them. -/
structure WALocation where
  latitude : Option String
  longitude : Option String
  name : Option String
  address : Option String
deriving DecidableEq, Repr

structure WAReaction where
  emoji : Option String
  message_id : Option String
deriving DecidableEq, Repr

structure WAMessageObj where
  id : String
  from_ : String
  timestamp : Nat
  type : String
  text : Option WAText
  image : Option WAMedia
  audio : Option WAMedia
  video : Option WAMedia
  document : Option WAMedia
  sticker : Option WAMedia
  location : Option WALocation
  reaction : Option WAReaction
deriving DecidableEq, Repr

structure WAStatusError where
  code : Nat
  title : String
deriving DecidableEq, Repr

structure WAStatusObj where
  id : String
  status : String
  timestamp : Nat
  errors : Option (List WAStatusError)
deriving DecidableEq, Repr

-- ---------------------------------------------------------------------------
-- extractMessageContent (webhook-handler.ts lines 564-660)
-- ---------------------------------------------------------------------------

structure ExtractedContent where
  messageType : String
  content : Option String
  mediaId : Option String
  mimeType : Option String
  filename : Option String
deriving DecidableEq, Repr

/-- Rendering of `JSON.stringify` applied to a string value; escaping of special characters inside
the value is elided (the claims never exercise it). -/
def jsonQuote (s : String) : String := "\"" ++ s ++ "\""

/-- One `key: value` member of the serialized location object; an `undefined`
value (absent optional chain) is dropped, as `JSON.stringify` does. -/
def jsonMember (key : String) (v : Option String) (quoted : Bool) : Option String :=
  v.map (fun s => jsonQuote key ++ ":" ++ (if quoted then jsonQuote s else s))

/-- Serialization of the location object, `JSON.stringify` over the four
fields, for the location branch of `extractMessageContent`. -/
def jsonStringifyLocation (loc : Option WALocation) : String :=
  let members := [jsonMember "latitude" (loc.bind WALocation.latitude) false,
                  jsonMember "longitude" (loc.bind WALocation.longitude) false,
                  jsonMember "name" (loc.bind WALocation.name) true,
                  jsonMember "address" (loc.bind WALocation.address) true]
  "\x7b" ++ String.intercalate "," (members.filterMap id) ++ "\x7d"

/-- webhook-handler.ts `extractMessageContent`: maps one provider message
object onto the normalized content tuple, switching on the `type` tag. -/
def extractMessageContent (message : WAMessageObj) : ExtractedContent :=
  match message.type with
  | "text" =>
      { messageType := "text"
        content := jsOrNull (message.text.bind WAText.body)
        mediaId := none, mimeType := none, filename := none }
  | "image" =>
      { messageType := "image"
        content := jsOrNull (message.image.bind WAMedia.caption)
        mediaId := jsOrNull (message.image.bind WAMedia.id)
        mimeType := jsOrNull (message.image.bind WAMedia.mime_type)
        filename := none }
  | "audio" =>
      { messageType := "audio"
        content := none
        mediaId := jsOrNull (message.audio.bind WAMedia.id)
        mimeType := jsOrNull (message.audio.bind WAMedia.mime_type)
        filename := none }
  | "video" =>
      { messageType := "video"
        content := jsOrNull (message.video.bind WAMedia.caption)
        mediaId := jsOrNull (message.video.bind WAMedia.id)
        mimeType := jsOrNull (message.video.bind WAMedia.mime_type)
        filename := none }
  | "document" =>
      { messageType := "document"
        content := jsOrNull (message.document.bind WAMedia.caption)
        mediaId := jsOrNull (message.document.bind WAMedia.id)
        mimeType := jsOrNull (message.document.bind WAMedia.mime_type)
        filename := jsOrNull (message.document.bind WAMedia.filename) }
  | "sticker" =>
      { messageType := "sticker"
        content := none
        mediaId := jsOrNull (message.sticker.bind WAMedia.id)
        mimeType := jsOrNull (message.sticker.bind WAMedia.mime_type)
        filename := none }
  | "location" =>
      { messageType := "location"
        content := some (jsonStringifyLocation message.location)
        mediaId := none, mimeType := none, filename := none }
  | "reaction" =>
      { messageType := "reaction"
        content := jsOrNull (message.reaction.bind WAReaction.emoji)
        mediaId := none, mimeType := none, filename := none }
  | _ =>
      { messageType := "text"
        content := some ("[Unsupported message type: " ++ message.type ++ "]")
        mediaId := none, mimeType := none, filename := none }

/-- webhook-handler.ts `buildMessagePreview`. -/
def buildMessagePreview (messageType : String) (content : Option String) : String :=
  match messageType with
  | "text" =>
      if jsTruthy content then
        let s := content.getD ""
        if s.length > 100 then s.take 100 ++ "..." else s
      else ""
  | "image" => if jsTruthy content then "[Imagem] " ++ content.getD "" else "[Imagem]"
  | "audio" => "[Audio]"
  | "video" => if jsTruthy content then "[Video] " ++ content.getD "" else "[Video]"
  | "document" => if jsTruthy content then "[Documento] " ++ content.getD "" else "[Documento]"
  | "sticker" => "[Sticker]"
  | "location" => "[Localização]"
  | "reaction" => if jsTruthy content then content.getD "" else "[Reação]"
  | _ => if jsTruthy content then content.getD "" else ""

-- ---------------------------------------------------------------------------
-- processStatusUpdate (webhook-handler.ts lines 236-278)
-- ---------------------------------------------------------------------------

/-- The `statusMap` record in `processStatusUpdate`: the provider status
vocabulary mapped to the message status column; anything else is absent. -/
def statusMap : String → Option String
  | "sent" => some "sent"
  | "delivered" => some "delivered"
  | "read" => some "read"
  | "failed" => some "failed"
  | _ => none

/-- The `code: title` summary joined into `error_message` on a failed status. -/
def failedErrorSummary (errors : List WAStatusError) : String :=
  String.intercalate "; " (errors.map (fun e => toString e.code ++ ": " ++ e.title))

/-- Whether the status callback carries a non-empty `errors` array. -/
def hasErrors (st : WAStatusObj) : Bool :=
  match st.errors with
  | some es => decide (0 < es.length)
  | none => false

/-- The row transformation of the
`update(updateData).eq(whatsapp_message_id, waMessageId)` query:
rows whose `whatsapp_message_id` matches get `status` (and, for a failed
status with errors, `error_message`) replaced; all other rows are unchanged. -/
def statusRowUpdate (st : WAStatusObj) (mapped : String) (m : MessageRow) : MessageRow :=
  if m.whatsapp_message_id == some st.id then
    { m with
      status := mapped
      error_message :=
        if mapped == "failed" && hasErrors st then
          some (failedErrorSummary (st.errors.getD []))
        else m.error_message }
  else m

/-- webhook-handler.ts `processStatusUpdate`. -/
def processStatusUpdate (db : DB) (st : WAStatusObj) : DB :=
  match statusMap st.status with
  | none => db
  | some mapped => { db with messages := db.messages.map (statusRowUpdate st mapped) }

-- ---------------------------------------------------------------------------
-- generateProtocolNumber (webhook-handler.ts lines 285-292)
-- ---------------------------------------------------------------------------

/-- JS `String.prototype.padStart(5, "0")`. -/
def padStart5 (s : String) : String :=
  if 5 ≤ s.length then s else String.mk (List.replicate (5 - s.length) '0') ++ s

/-- webhook-handler.ts `generateProtocolNumber`: `utcDateStr` is
`new Date().toISOString().slice(0, 10)` with the dashes removed — the current
calendar date rendered in UTC — and `rand` is the draw
`Math.floor(Math.random() * 99999)`, an arbitrary value in `[0, 99998]`.
Both are inputs of the model since the source reads the clock and the
random generator. -/
def generateProtocolNumber (utcDateStr : String) (rand : Nat) : String :=
  utcDateStr ++ "-" ++ padStart5 (toString rand)

-- ---------------------------------------------------------------------------
-- Webhook route POST handler (src/app/api/webhooks/whatsapp/route.ts)
-- ---------------------------------------------------------------------------

structure RouteEnv where
  appSecret : Option String
deriving DecidableEq, Repr

structure HttpRequest where
  body : String
  signatureHeader : Option String
deriving DecidableEq, Repr

structure RouteResult where
  status : Nat
  pipelineInvoked : Bool
deriving DecidableEq, Repr

/-- route.ts `timingSafeEqual`: on a length mismatch the source compares a
buffer with itself (a constant-time dummy) and returns false; on equal
lengths `crypto.timingSafeEqual` compares the UTF-8 buffers byte for byte,
which holds exactly when the strings are equal (as does the `a === b`
fallback). -/
def timingSafeEqual (a b : String) : Bool :=
  if a.length != b.length then false else a == b

/-- route.ts `POST`. `hmacSha256Hex secret body` stands for
`createHmac("sha256", secret).update(body).digest("hex")` and
`parseJson` for `JSON.parse` (`none` = thrown syntax error); both are
uninterpreted parameters. `pipelineInvoked` records whether the handler
reached the `processWebhookPayload(payload)` call. -/
def POST {α : Type} (hmacSha256Hex : String → String → String)
    (parseJson : String → Option α) (env : RouteEnv) (req : HttpRequest) :
    RouteResult :=
  match env.appSecret with
  | none => { status := 500, pipelineInvoked := false }
  | some appSecret =>
    match req.signatureHeader with
    | none => { status := 401, pipelineInvoked := false }
    | some signature =>
      let expectedSignature := "sha256=" ++ hmacSha256Hex appSecret req.body
      if !(timingSafeEqual signature expectedSignature) then
        { status := 401, pipelineInvoked := false }
      else
        match parseJson req.body with
        | none => { status := 400, pipelineInvoked := false }
        | some _ => { status := 200, pipelineInvoked := true }

-- ---------------------------------------------------------------------------
-- Store operations (Supabase queries issued by the webhook handler, with the
-- uniqueness constraints of 001_crm_schema.sql enforced on insert)
-- ---------------------------------------------------------------------------

/-- Query `from(crm_contacts).select().eq(org_id).eq(phone).single()`; the
constraint `UNIQUE (org_id, phone)` guarantees at most one row, so `single()`
succeeds exactly when a matching row exists. -/
def findContact (db : DB) (orgId phone : String) : Option ContactRow :=
  db.contacts.find? (fun c => c.org_id == orgId && c.phone == phone)

/-- Insert into `crm_contacts`; fails on the `UNIQUE (org_id, phone)`
constraint (001_crm_schema.sql line 134). -/
def insertContact (db : DB) (orgId phone : String) (name profilePicture : Option String)
    (now : Nat) : DB × Except String ContactRow :=
  if db.contacts.any (fun c => c.org_id == orgId && c.phone == phone) then
    (db, Except.error "duplicate key value violates unique constraint crm_contacts_org_id_phone_key")
  else
    let row : ContactRow :=
      { id := newRowId db.nextId, org_id := orgId, phone := phone, name := name
        profile_picture_url := profilePicture, created_at := now, updated_at := now }
    ({ db with contacts := db.contacts ++ [row], nextId := db.nextId + 1 }, Except.ok row)

/-- webhook-handler.ts `upsertContact` (lines 299-365), with the two store
round-trips made explicit: the find query runs against the snapshot `dbFind`,
the subsequent write against `dbWrite`. A single sequential invocation is
`upsertContact` below (both snapshots equal); a webhook delivery racing
another one sees in `dbWrite` rows that were absent from `dbFind`. -/
def upsertContactAt (dbFind dbWrite : DB) (orgId phone : String)
    (name profilePicture : Option String) (now : Nat) : DB × Except String ContactRow :=
  match findContact dbFind orgId phone with
  | some existing =>
    let updName := jsTruthy name && !(jsTruthy existing.name)
    let updPic := jsTruthy profilePicture && profilePicture != existing.profile_picture_url
    if updName || updPic then
      let applyUpd := fun (c : ContactRow) =>
        { c with
          name := if updName then name else c.name
          profile_picture_url := if updPic then profilePicture else c.profile_picture_url
          updated_at := now }
      ({ dbWrite with
          contacts := dbWrite.contacts.map (fun c => if c.id == existing.id then applyUpd c else c) },
        Except.ok (applyUpd existing))
    else
      (dbWrite, Except.ok existing)
  | none =>
    match insertContact dbWrite orgId phone (jsOrNull name) (jsOrNull profilePicture) now with
    | (db1, Except.ok created) => (db1, Except.ok created)
    | (db1, Except.error e) => (db1, Except.error ("Failed to create contact: " ++ e))

/-- Wrapper: `upsertContact` as executed sequentially inside the pipeline. -/
def upsertContact (db : DB) (orgId phone : String) (name profilePicture : Option String)
    (now : Nat) : DB × Except String ContactRow :=
  upsertContactAt db db orgId phone name profilePicture now

/-- The find-query of `findOrCreateConversation` restricts to these statuses. -/
def isActiveStatus (s : String) : Bool :=
  s == "pending" || s == "open" || s == "waiting"

/-- Query `from(crm_conversations).select().eq(org_id).eq(contact_id)
.in(status, [pending, open, waiting]).order(created_at, descending)
.limit(1).maybeSingle()`. Among rows sharing the maximal `created_at` the
store order is unspecified; the model keeps the first such row. -/
def latestActiveConversation (db : DB) (orgId contactId : String) : Option ConversationRow :=
  (db.conversations.filter
      (fun c => c.org_id == orgId && c.contact_id == contactId && isActiveStatus c.status)).foldl
    (fun acc c =>
      match acc with
      | none => some c
      | some b => if b.created_at < c.created_at then some c else some b)
    none

/-- Insert into `crm_conversations`; fails on the
`protocol_number text UNIQUE` constraint (001_crm_schema.sql line 203). -/
def insertConversation (db : DB) (row : ConversationRow) : DB × Except String ConversationRow :=
  if db.conversations.any (fun c => c.protocol_number == row.protocol_number
      && row.protocol_number.isSome) then
    (db, Except.error "duplicate key value violates unique constraint crm_conversations_protocol_number_key")
  else
    let row1 := { row with id := newRowId db.nextId }
    ({ db with conversations := db.conversations ++ [row1], nextId := db.nextId + 1 },
      Except.ok row1)

/-- Environment of one `processIncomingMessage` run: the wall clock, the
`Math.random()` draw behind `generateProtocolNumber`, the
`WHATSAPP_ACCESS_TOKEN` environment variable and the outcome of
`uploadMediaToSupabase` (`some (publicUrl, mimeType)` on success, `none`
when the upload throws — the error is caught and logged). -/
structure WebhookEnv where
  now : Nat
  utcDate : String
  rand : Nat
  envAccessToken : Option String
  mediaResult : Option (String × String)
deriving DecidableEq, Repr

/-- webhook-handler.ts `findOrCreateConversation` (lines 372-429). -/
def findOrCreateConversation (db : DB) (orgId contactId : String) (env : WebhookEnv) :
    DB × Except String ConversationRow :=
  match latestActiveConversation db orgId contactId with
  | some existing => (db, Except.ok existing)
  | none =>
    let protocolNumber := generateProtocolNumber env.utcDate env.rand
    let newRow : ConversationRow :=
      { id := "", org_id := orgId, contact_id := contactId
        assigned_agent_id := none, queue := none, status := "pending"
        is_bot_active := false, current_flow_id := none, tags := []
        classification := none, protocol_number := some protocolNumber
        last_message_at := some env.now, last_message_preview := none
        unread_count := 0, created_at := env.now, updated_at := env.now }
    match insertConversation db newRow with
    | (db1, Except.error e) => (db1, Except.error ("Failed to create conversation: " ++ e))
    | (db1, Except.ok created) =>
      -- Lines 419-426 insert a `conversation_created` protocol-log row with
      -- `action` and `details` keys; `crm_protocol_log` has neither column
      -- (001_crm_schema.sql:450-464), so the store rejects the insert, and the
      -- handler ignores the result: nothing is written.
      (db1, Except.ok created)

-- ---------------------------------------------------------------------------
-- assignAgent (webhook-handler.ts lines 436-558)
-- ---------------------------------------------------------------------------

/-- The candidate query: org agents with status in {online, away}, role in
{agent, admin, owner}, and — when a queue is given (JS truthiness) — queue
affiliation equal to it or to the wildcard `both`. -/
def agentPool (db : DB) (orgId : String) (queue : Option String) : List CrmUserRow :=
  db.users.filter (fun u =>
    u.org_id == orgId
    && (u.status == "online" || u.status == "away")
    && (u.role == "agent" || u.role == "admin" || u.role == "owner")
    && (match queue with
        | some q => if q.isEmpty then true else u.queue == q || u.queue == "both"
        | none => true))

/-- The per-agent count query:
`select(id, count exact).eq(org_id, orgId)
.eq(assigned_agent_id, agent.id).in(status, [open, waiting])`. -/
def openConversationCount (db : DB) (orgId agentId : String) : Nat :=
  db.conversations.countP (fun c =>
    c.org_id == orgId && c.assigned_agent_id == some agentId
    && (c.status == "open" || c.status == "waiting"))

structure AgentCount where
  agent : CrmUserRow
  openCount : Nat
deriving DecidableEq, Repr

/-- The `agentCounts` array: candidates at or above `max_concurrent_chats`
are skipped. -/
def agentCandidates (db : DB) (orgId : String) (queue : Option String) : List AgentCount :=
  (agentPool db orgId queue).filterMap (fun a =>
    let cnt := openConversationCount db orgId a.id
    if a.max_concurrent_chats ≤ cnt then none else some ⟨a, cnt⟩)

def isOnline (u : CrmUserRow) : Bool := u.status == "online"

/-- The sort comparator of `agentCounts.sort`: online before away, then by
ascending open count. -/
def agentCompare (a b : AgentCount) : Int :=
  if isOnline a.agent && !(isOnline b.agent) then -1
  else if !(isOnline a.agent) && isOnline b.agent then 1
  else (a.openCount : Int) - (b.openCount : Int)

/-- Selection: `agentCounts.sort(cmp)` followed by `agentCounts[0]`:
`Array.prototype.sort` is stable (ECMA-262), so index 0 holds the first
element of the original array that is minimal under the comparator preorder;
the fold below returns exactly that element (it replaces the accumulator only
on a strict comparator decrease). -/
def selectCandidate (l : List AgentCount) : Option AgentCount :=
  l.foldl (fun acc c =>
    match acc with
    | none => some c
    | some b => if agentCompare c b < 0 then some c else acc) none

/-- The selection made by one `assignAgent` run over the store. -/
def selectedCandidate (db : DB) (orgId : String) (queue : Option String) : Option AgentCount :=
  selectCandidate (agentCandidates db orgId queue)

/-- The conversation update written on assignment:
`update(assigned_agent_id, status open, updated_at).eq(id, conversationId)`. -/
def assignUpdate (conversationId agentId : String) (now : Nat) (c : ConversationRow) :
    ConversationRow :=
  if c.id == conversationId then
    { c with assigned_agent_id := some agentId, status := "open", updated_at := now }
  else c

/-- The write-back half of `assignAgent` (lines 511-554): the conversation
update, followed by two audit writes that never land. Lines 527-546 re-fetch
the protocol number and, when it is truthy, insert an `agent_assigned`
protocol-log row carrying `action` and `details` keys; lines 549-554 insert a
`conversation_assigned` activity row carrying a `details` key. Neither
`crm_protocol_log` (no `action`/`details` columns) nor
`crm_agent_activity_log` (`metadata`, not `details`) accepts those payloads,
and the handler ignores both results, so the store is changed only by the
conversation update. -/
def applyAssignment (db : DB) (_orgId conversationId : String) (sel : AgentCount)
    (now : Nat) : DB :=
  { db with
    conversations := db.conversations.map (assignUpdate conversationId sel.agent.id now) }

/-- webhook-handler.ts `assignAgent`. -/
def assignAgent (db : DB) (orgId conversationId : String) (queue : Option String)
    (now : Nat) : DB :=
  let agents := agentPool db orgId queue
  if agents.isEmpty then db
  else
    let agentCounts := agentCandidates db orgId queue
    if agentCounts.isEmpty then db
    else
      match selectCandidate agentCounts with
      | none => db
      | some sel => applyAssignment db orgId conversationId sel now

-- ---------------------------------------------------------------------------
-- processIncomingMessage (webhook-handler.ts lines 89-230)
-- ---------------------------------------------------------------------------

/-- Calls the pipeline makes against the external WhatsApp API. -/
inductive WAAction where
  | sendText (toPhone text phoneNumberId accessToken : String)
  | markAsRead (messageId phoneNumberId accessToken : String)
deriving DecidableEq, Repr

/-- Pipeline state: the store plus the provider calls issued so far. -/
structure PipelineState where
  db : DB
  actions : List WAAction
deriving DecidableEq, Repr

/-- Computation of the sender display name:
`contacts?.find(c => c.wa_id === senderPhone)?.profile?.name || null`. -/
def senderNameOf (contacts : Option (List WAContact)) (senderPhone : String) : Option String :=
  jsOrNull (((contacts.getD []).find? (fun c => c.wa_id == senderPhone)).bind
    (fun c => c.profile.bind WAProfile.name))

/-- Insert into `crm_messages`; fails on the `whatsapp_message_id text
UNIQUE` constraint (001_crm_schema.sql:246) and on the
`sender_id uuid REFERENCES crm_users(id)` foreign key
(001_crm_schema.sql:234) when the given sender id is no user id. Which
violated constraint the store reports first is immaterial: the handler only
checks whether an error occurred. The `conversation_id` foreign key and the
CHECK constraints are omitted because every insert the handler issues
satisfies them (the conversation id comes from a row just fetched or
created, `reply_to_message_id` is always null, and the normalized
sender/message types and status are in the allowed sets). The store mints
the row id. -/
def insertMessage (db : DB) (row : MessageRow) : DB × Except String MessageRow :=
  if (match row.whatsapp_message_id with
      | some w => db.messages.any (fun m => m.whatsapp_message_id == some w)
      | none => false) then
    (db, Except.error "duplicate key value violates unique constraint crm_messages_whatsapp_message_id_key")
  else if (match row.sender_id with
      | some sid => !(db.users.any (fun u => u.id == sid))
      | none => false) then
    (db, Except.error "insert or update on table crm_messages violates foreign key constraint crm_messages_sender_id_fkey")
  else
    let row1 := { row with id := newRowId db.nextId }
    ({ db with messages := db.messages ++ [row1], nextId := db.nextId + 1 }, Except.ok row1)

/-- webhook-handler.ts `processIncomingMessage`: one inbound message through
the per-message pipeline. Thrown errors from contact/conversation resolution
and the store error of the message insert are caught (logged) exactly where
the source catches them, ending the run with the store as written so far. -/
def processIncomingMessage (env : WebhookEnv) (org : OrganizationRow)
    (message : WAMessageObj) (contacts : Option (List WAContact))
    (phoneNumberId : String) (st : PipelineState) : PipelineState :=
  let senderPhone := message.from_
  let waMessageId := message.id
  let senderName := senderNameOf contacts senderPhone
  -- 1. Upsert contact
  match upsertContactAt st.db st.db org.org_id senderPhone senderName none env.now with
  | (db1, Except.error _) => { st with db := db1 }
  | (db1, Except.ok contact) =>
    -- 2. Find or create conversation
    match findOrCreateConversation db1 org.org_id contact.id env with
    | (db2, Except.error _) => { st with db := db2 }
    | (db2, Except.ok conversation) =>
      -- 3. Determine message type and extract content
      let ext := extractMessageContent message
      -- 4. If media message, download and upload to Supabase Storage
      let token := jsOr org.whatsapp_access_token env.envAccessToken
      let mediaUpload := if ext.mediaId.isSome && jsTruthy token then env.mediaResult else none
      let mediaUrl : Option String := mediaUpload.map Prod.fst
      let mediaMimeType : Option String :=
        match mediaUpload with
        | some r => some r.2
        | none => ext.mimeType
      let mediaFilename : Option String := ext.filename
      -- 5. Save message to crm_messages
      let messagePreview := buildMessagePreview ext.messageType ext.content
      match insertMessage db2
        { id := "", conversation_id := conversation.id, sender_type := "contact"
          sender_id := some contact.id, message_type := ext.messageType
          content := ext.content, media_url := mediaUrl, media_mime_type := mediaMimeType
          media_filename := mediaFilename, whatsapp_message_id := some waMessageId
          status := "delivered", error_message := none, reply_to_message_id := none } with
      | (db3, Except.error _) => { st with db := db3 }
      | (db3, Except.ok _savedMessage) =>
        -- 6. Update conversation aggregates (unread count read from memory)
        let db4 := { db3 with conversations := db3.conversations.map (fun c =>
          if c.id == conversation.id then
            { c with last_message_at := some (message.timestamp * 1000)
                     last_message_preview := some messagePreview
                     unread_count := conversation.unread_count + 1
                     updated_at := env.now }
          else c) }
        -- 7. If conversation has a bot active, skip agent assignment
        if conversation.is_bot_active then { st with db := db4 }
        else
          -- 8. If pending and unassigned, assign agent
          let db5 :=
            if conversation.status == "pending" && !(jsTruthy conversation.assigned_agent_id) then
              assignAgent db4 org.org_id conversation.id conversation.queue env.now
            else db4
          -- 9. Auto-reply when the fetched conversation was pending
          let actions1 :=
            if conversation.status == "pending" && jsTruthy org.auto_reply_message
                && jsTruthy token then
              st.actions ++ [WAAction.sendText senderPhone (org.auto_reply_message.getD "")
                phoneNumberId (token.getD "")]
            else st.actions
          -- 10. Mark message as read on WhatsApp
          let actions2 :=
            if jsTruthy token then
              actions1 ++ [WAAction.markAsRead waMessageId phoneNumberId (token.getD "")]
            else actions1
          { db := db5, actions := actions2 }

-- ===========================================================================
-- Theorems
-- ===========================================================================

/-- The provider message types `extractMessageContent` handles explicitly. -/
def knownWATypes : List String :=
  ["text", "image", "audio", "video", "document", "sticker", "location", "reaction"]

/-- C6: `extractMessageContent` is total over provider message objects: each
known `type` maps to the same-named message type — captions becoming the text
content for image/video/document, no text for audio/sticker, location
serialized to a structured JSON blob, reaction contributing its emoji — and
every type string outside the known set maps to type `text` with a literal
placeholder naming the unsupported type; no input is dropped or raises. -/
theorem content_extraction_total (m : WAMessageObj) :
    (m.type = "text" → extractMessageContent m =
      ⟨"text", jsOrNull (m.text.bind WAText.body), none, none, none⟩) ∧
    (m.type = "image" → extractMessageContent m =
      ⟨"image", jsOrNull (m.image.bind WAMedia.caption), jsOrNull (m.image.bind WAMedia.id),
        jsOrNull (m.image.bind WAMedia.mime_type), none⟩) ∧
    (m.type = "audio" → extractMessageContent m =
      ⟨"audio", none, jsOrNull (m.audio.bind WAMedia.id),
        jsOrNull (m.audio.bind WAMedia.mime_type), none⟩) ∧
    (m.type = "video" → extractMessageContent m =
      ⟨"video", jsOrNull (m.video.bind WAMedia.caption), jsOrNull (m.video.bind WAMedia.id),
        jsOrNull (m.video.bind WAMedia.mime_type), none⟩) ∧
    (m.type = "document" → extractMessageContent m =
      ⟨"document", jsOrNull (m.document.bind WAMedia.caption),
        jsOrNull (m.document.bind WAMedia.id), jsOrNull (m.document.bind WAMedia.mime_type),
        jsOrNull (m.document.bind WAMedia.filename)⟩) ∧
    (m.type = "sticker" → extractMessageContent m =
      ⟨"sticker", none, jsOrNull (m.sticker.bind WAMedia.id),
        jsOrNull (m.sticker.bind WAMedia.mime_type), none⟩) ∧
    (m.type = "location" → extractMessageContent m =
      ⟨"location", some (jsonStringifyLocation m.location), none, none, none⟩) ∧
    (m.type = "reaction" → extractMessageContent m =
      ⟨"reaction", jsOrNull (m.reaction.bind WAReaction.emoji), none, none, none⟩) ∧
    (m.type ∉ knownWATypes → extractMessageContent m =
      ⟨"text", some ("[Unsupported message type: " ++ m.type ++ "]"), none, none, none⟩) := by
  refine ⟨?_, ?_, ?_, ?_, ?_, ?_, ?_, ?_, ?_⟩ <;> intro h
  case _ => simp [extractMessageContent, h]
  case _ => simp [extractMessageContent, h]
  case _ => simp [extractMessageContent, h]
  case _ => simp [extractMessageContent, h]
  case _ => simp [extractMessageContent, h]
  case _ => simp [extractMessageContent, h]
  case _ => simp [extractMessageContent, h]
  case _ => simp [extractMessageContent, h]
  case _ =>
    simp only [extractMessageContent]
    split
    all_goals first
      | rfl
      | (exfalso; apply h; simp_all [knownWATypes])

/-- C6 witness: a provider type outside the known set (here `order`) is
normalized to a text message carrying the literal placeholder. -/
theorem content_extraction_total_witness :
    ("order" ∉ knownWATypes) ∧
    extractMessageContent
      { id := "wamid.9", from_ := "+5511988887777", timestamp := 5, type := "order"
        text := none, image := none, audio := none, video := none, document := none
        sticker := none, location := none, reaction := none } =
      ⟨"text", some "[Unsupported message type: order]", none, none, none⟩ :=
  ⟨by decide,
    (content_extraction_total _).2.2.2.2.2.2.2.2 (by decide)⟩

/-- A map that fixes every member of a list leaves it unchanged. -/
theorem list_map_id_of_mem {α : Type} (l : List α) (f : α → α)
    (h : ∀ a ∈ l, f a = a) : l.map f = l := by
  induction l with
  | nil => rfl
  | cons x t ih => simp_all

/-- C8: the delivery status tracker maps a provider status in
{sent, delivered, read, failed} onto the `status` of the message keyed by
`whatsapp_message_id`; an unknown status value changes no rows; a callback
matching no stored message changes no rows; a failed status with an errors
array writes the joined `code: title` summary to `error_message`; and no
field other than `status` and `error_message` is modified. -/
theorem delivery_status_tracker (db : DB) (st : WAStatusObj) :
    (statusMap st.status = none → processStatusUpdate db st = db) ∧
    ((∀ m ∈ db.messages, m.whatsapp_message_id ≠ some st.id) →
      processStatusUpdate db st = db) ∧
    (∀ mapped, statusMap st.status = some mapped →
      (processStatusUpdate db st).messages = db.messages.map (statusRowUpdate st mapped) ∧
      (processStatusUpdate db st).contacts = db.contacts ∧
      (processStatusUpdate db st).conversations = db.conversations ∧
      (processStatusUpdate db st).users = db.users ∧
      (processStatusUpdate db st).protocolLog = db.protocolLog ∧
      (processStatusUpdate db st).activityLog = db.activityLog ∧
      ∀ m : MessageRow,
        (m.whatsapp_message_id ≠ some st.id → statusRowUpdate st mapped m = m) ∧
        (m.whatsapp_message_id = some st.id →
          (statusRowUpdate st mapped m).status = mapped ∧
          (statusRowUpdate st mapped m).error_message =
            (if mapped = "failed" ∧ hasErrors st = true then
              some (failedErrorSummary (st.errors.getD []))
            else m.error_message) ∧
          (statusRowUpdate st mapped m).id = m.id ∧
          (statusRowUpdate st mapped m).conversation_id = m.conversation_id ∧
          (statusRowUpdate st mapped m).sender_type = m.sender_type ∧
          (statusRowUpdate st mapped m).sender_id = m.sender_id ∧
          (statusRowUpdate st mapped m).message_type = m.message_type ∧
          (statusRowUpdate st mapped m).content = m.content ∧
          (statusRowUpdate st mapped m).media_url = m.media_url ∧
          (statusRowUpdate st mapped m).media_mime_type = m.media_mime_type ∧
          (statusRowUpdate st mapped m).media_filename = m.media_filename ∧
          (statusRowUpdate st mapped m).whatsapp_message_id = m.whatsapp_message_id ∧
          (statusRowUpdate st mapped m).reply_to_message_id = m.reply_to_message_id)) := by
  refine ⟨?_, ?_, ?_⟩
  · intro h
    simp [processStatusUpdate, h]
  · intro h
    unfold processStatusUpdate
    match hs : statusMap st.status with
    | none => rfl
    | some mapped =>
      have hmap : db.messages.map (statusRowUpdate st mapped) = db.messages := by
        apply list_map_id_of_mem
        intro m hm
        have : (m.whatsapp_message_id == some st.id) = false := by
          simp [h m hm]
        simp [statusRowUpdate, this]
      simp [hmap]
  · intro mapped hs
    refine ⟨by simp [processStatusUpdate, hs], by simp [processStatusUpdate, hs],
      by simp [processStatusUpdate, hs], by simp [processStatusUpdate, hs],
      by simp [processStatusUpdate, hs], by simp [processStatusUpdate, hs], ?_⟩
    intro m
    constructor
    · intro hne
      have : (m.whatsapp_message_id == some st.id) = false := by simp [hne]
      simp [statusRowUpdate, this]
    · intro heq
      have : (m.whatsapp_message_id == some st.id) = true := by simp [heq]
      refine ⟨by simp [statusRowUpdate, this], ?_, by simp [statusRowUpdate, this],
        by simp [statusRowUpdate, this], by simp [statusRowUpdate, this],
        by simp [statusRowUpdate, this], by simp [statusRowUpdate, this],
        by simp [statusRowUpdate, this], by simp [statusRowUpdate, this],
        by simp [statusRowUpdate, this], by simp [statusRowUpdate, this],
        by simp [statusRowUpdate, this], by simp [statusRowUpdate, this]⟩
      by_cases hf : mapped = "failed" ∧ hasErrors st = true
      · have hb : (mapped == "failed" && hasErrors st) = true := by
          simp [hf.1, hf.2]
        simp [statusRowUpdate, this, hb, hf]
      · have hb : (mapped == "failed" && hasErrors st) = false := by
          rcases Decidable.not_and_iff_or_not.mp hf with h1 | h1 <;> simp_all
        simp [statusRowUpdate, this, hb, hf]

def c8Msg : MessageRow :=
  { id := "row-3", conversation_id := "row-1", sender_type := "agent"
    sender_id := some "a1", message_type := "text", content := some "promo"
    media_url := none, media_mime_type := none, media_filename := none
    whatsapp_message_id := some "wamid.77", status := "sent", error_message := none
    reply_to_message_id := none }

def c8Db : DB := { DB.empty with messages := [c8Msg] }

def c8St : WAStatusObj :=
  { id := "wamid.77", status := "failed", timestamp := 9
    errors := some [{ code := 131047, title := "Re-engagement message" }] }

/-- C8 witness: a failed callback with
`errors: [{code: 131047, title: "Re-engagement message"}]` updates the
matching stored message via the row transformation the theorem describes, and
the concrete result carries status `failed` and the error summary
`131047: Re-engagement message`. -/
theorem delivery_status_tracker_witness :
    statusMap "failed" = some "failed" ∧
    (processStatusUpdate c8Db c8St).messages = c8Db.messages.map (statusRowUpdate c8St "failed") ∧
    (processStatusUpdate c8Db c8St).messages.map
      (fun m => (m.status, m.error_message)) =
      [("failed", some "131047: Re-engagement message")] :=
  ⟨rfl, ((delivery_status_tracker c8Db c8St).2.2 "failed" rfl).1, by decide⟩

/-- Lemma: `timingSafeEqual` decides string equality. -/
theorem timingSafeEqual_eq_true_iff (a b : String) :
    timingSafeEqual a b = true ↔ a = b := by
  unfold timingSafeEqual
  constructor
  · intro h
    by_cases hl : a.length = b.length
    · simp [hl] at h
      exact h
    · simp [bne, hl] at h
  · intro h
    subst h
    simp

/-- C9: the POST webhook handler fails closed — if the shared secret is
unconfigured, the signature header is absent, or the header differs from the
`sha256=`-prefixed hex HMAC of the raw body, the response status is an error
status (never 200) and `processWebhookPayload` is never invoked; moreover the
rejection is computed from the raw body alone, before and independently of
any JSON parsing of the payload. -/
theorem signature_verification_fails_closed {α β : Type}
    (hmacSha256Hex : String → String → String) (parseJson : String → Option α)
    (env : RouteEnv) (req : HttpRequest)
    (h : env.appSecret = none ∨ req.signatureHeader = none ∨
      (∃ s sig, env.appSecret = some s ∧ req.signatureHeader = some sig ∧
        sig ≠ "sha256=" ++ hmacSha256Hex s req.body)) :
    (POST hmacSha256Hex parseJson env req).status ≠ 200 ∧
    (POST hmacSha256Hex parseJson env req).pipelineInvoked = false ∧
    (∀ parseJson2 : String → Option β,
      POST hmacSha256Hex parseJson2 env req = POST hmacSha256Hex parseJson env req) := by
  rcases h with h | h | ⟨s, sig, hs, hsig, hne⟩
  · refine ⟨?_, ?_, ?_⟩ <;> simp [POST, h]
  · cases he : env.appSecret with
    | none => refine ⟨?_, ?_, ?_⟩ <;> simp [POST, he]
    | some s => refine ⟨?_, ?_, ?_⟩ <;> simp [POST, he, h]
  · have hts : timingSafeEqual sig ("sha256=" ++ hmacSha256Hex s req.body) = false := by
      cases hts : timingSafeEqual sig ("sha256=" ++ hmacSha256Hex s req.body) with
      | false => rfl
      | true => exact absurd ((timingSafeEqual_eq_true_iff _ _).mp hts) hne
    refine ⟨?_, ?_, ?_⟩ <;> simp [POST, hs, hsig, hts]

/-- C9 witness: with a configured secret and a header that does not match the
expected HMAC value, the handler rejects with a non-200 status, never invokes
the pipeline, and behaves identically under any JSON parser. -/
theorem signature_verification_fails_closed_witness :
    ((none : Option String) = none ∨ (some "bogus" : Option String) = none ∨
      (∃ s sig, (some "secret0" : Option String) = some s ∧
        (some "bogus" : Option String) = some sig ∧
        sig ≠ "sha256=" ++ (fun _ _ => "feedc0de" : String → String → String) s "rawbody")) ∧
    (POST (fun _ _ => "feedc0de") (fun _ => some ()) ⟨some "secret0"⟩ ⟨"rawbody", some "bogus"⟩).status ≠ 200 ∧
    (POST (fun _ _ => "feedc0de") (fun _ => some ()) ⟨some "secret0"⟩ ⟨"rawbody", some "bogus"⟩).pipelineInvoked = false ∧
    (∀ parseJson2 : String → Option Nat,
      POST (fun _ _ => "feedc0de") parseJson2 ⟨some "secret0"⟩ ⟨"rawbody", some "bogus"⟩ =
      POST (fun _ _ => "feedc0de") (fun _ => some ()) ⟨some "secret0"⟩ ⟨"rawbody", some "bogus"⟩) :=
  ⟨Or.inr (Or.inr ⟨"secret0", "bogus", rfl, rfl, by decide⟩),
    signature_verification_fails_closed (fun _ _ => "feedc0de") (fun _ => some ())
      ⟨some "secret0"⟩ ⟨"rawbody", some "bogus"⟩
      (Or.inr (Or.inr ⟨"secret0", "bogus", rfl, rfl, by decide⟩))⟩

/-- The contact row created by the winning invocation of the C2 race. -/
def c2Winner : ContactRow :=
  { id := "row-0", org_id := "org1", phone := "+5511999999999", name := some "Maria"
    profile_picture_url := none, created_at := 1000, updated_at := 1000 }

/-- The store as the losing invocation sees it at its insert step: the
row of the winner is already present. -/
def c2DbAtInsert : DB := { DB.empty with contacts := [c2Winner], nextId := 1 }

/-- C2: evaluation of `upsertContact` on the contact-creation race. The losing
find step of the losing invocation ran against a store with no matching row
(`DB.empty`), its insert step against a store already holding the row of the
winner, so the
insert hits the `UNIQUE (org_id, phone)` violation — and `upsertContact`
throws `Failed to create contact: ...` instead of catching the violation and
re-fetching the first-created row as the claim states. -/
theorem contact_race_loser_throws :
    upsertContactAt DB.empty c2DbAtInsert "org1" "+5511999999999" (some "Maria") none 2000 =
      (c2DbAtInsert,
        Except.error "Failed to create contact: duplicate key value violates unique constraint crm_contacts_org_id_phone_key") ∧
    upsertContactAt DB.empty DB.empty "org1" "+5511999999999" (some "Maria") none 1000 =
      ({ DB.empty with contacts := [c2Winner], nextId := 1 }, Except.ok c2Winner) := by
  constructor
  · rfl
  · rfl

/-- A conversation created earlier the same day, already holding protocol
number `20260212-00007`, belonging to another contact and long closed. -/
def c3OldConv : ConversationRow :=
  { id := "row-0", org_id := "org1", contact_id := "contact-1"
    assigned_agent_id := none, queue := none, status := "closed"
    is_bot_active := false, current_flow_id := none, tags := []
    classification := none, protocol_number := some "20260212-00007"
    last_message_at := none, last_message_preview := none, unread_count := 0
    created_at := 100, updated_at := 100 }

def c3Db : DB := { DB.empty with conversations := [c3OldConv], nextId := 1 }

/-- Environment of the second creation: same UTC day, and the client-side
`Math.floor(Math.random() * 99999)` draw happens to repeat the value 7. -/
def c3Env : WebhookEnv :=
  { now := 200, utcDate := "20260212", rand := 7, envAccessToken := none, mediaResult := none }

/-- C3: evaluation of the protocol-number generator at a colliding input.
`generateProtocolNumber` is client-side randomness, not a persistence-layer
sequence: the draw 7 (a legal `Math.floor(Math.random() * 99999)` outcome)
reproduces the protocol number of a conversation already created the same
day, and creating a second conversation with it makes the UNIQUE
constraint reject the insert, so `findOrCreateConversation` throws instead
of ever producing a fresh sequential number. -/
theorem protocol_number_collision :
    generateProtocolNumber "20260212" 7 = "20260212-00007" ∧
    7 ≤ 99998 ∧
    c3OldConv.protocol_number = some (generateProtocolNumber "20260212" 7) ∧
    findOrCreateConversation c3Db "org1" "contact-2" c3Env =
      (c3Db,
        Except.error "Failed to create conversation: duplicate key value violates unique constraint crm_conversations_protocol_number_key") := by
  refine ⟨by decide, by decide, by decide, ?_⟩
  rfl

/-- C7 (amended): when every conversation of a contact is in a terminal
status (`resolved`/`closed`), conversation resolution finds nothing — its
find step restricts to {pending, open, waiting} — and (when the generated
protocol number is fresh, i.e. the insert passes the uniqueness constraint)
creates a brand-new `pending`, unassigned conversation carrying the freshly
generated protocol number, distinct from every previously stored one. The
`conversation_created` protocol-log insert the handler then attempts is
rejected by the store (`crm_protocol_log` has no `action`/`details` columns)
and its failure ignored, so the protocol log is left unchanged. In
particular the result is never one of the terminal conversations. -/
theorem fresh_conversation_after_terminal (db : DB) (orgId contactId : String)
    (env : WebhookEnv)
    (hTerm : ∀ c ∈ db.conversations, c.org_id = orgId → c.contact_id = contactId →
      c.status = "resolved" ∨ c.status = "closed")
    (hFresh : ∀ c ∈ db.conversations,
      c.protocol_number ≠ some (generateProtocolNumber env.utcDate env.rand)) :
    latestActiveConversation db orgId contactId = none ∧
    (findOrCreateConversation db orgId contactId env).1.protocolLog = db.protocolLog ∧
    ∃ conv : ConversationRow,
      findOrCreateConversation db orgId contactId env =
        ({ db with
            conversations := db.conversations ++ [conv]
            nextId := db.nextId + 1 }, Except.ok conv) ∧
      conv.status = "pending" ∧
      conv.assigned_agent_id = none ∧
      conv.protocol_number = some (generateProtocolNumber env.utcDate env.rand) ∧
      (∀ old ∈ db.conversations, ∀ p, old.protocol_number = some p →
        conv.protocol_number ≠ some p) := by
  have hfil : db.conversations.filter
      (fun c => c.org_id == orgId && c.contact_id == contactId && isActiveStatus c.status) = [] := by
    rw [List.filter_eq_nil_iff]
    intro c hc hp
    simp only [Bool.and_eq_true, beq_iff_eq] at hp
    obtain ⟨⟨horg, hcon⟩, hact⟩ := hp
    rcases hTerm c hc horg hcon with h | h <;> rw [h] at hact <;> simp [isActiveStatus] at hact
  have hfind : latestActiveConversation db orgId contactId = none := by
    unfold latestActiveConversation
    rw [hfil]
    rfl
  have hins : db.conversations.any (fun c =>
      c.protocol_number == some (generateProtocolNumber env.utcDate env.rand)
      && (some (generateProtocolNumber env.utcDate env.rand)).isSome) = false := by
    rw [List.any_eq_false]
    intro c hc hp
    simp only [Bool.and_eq_true, beq_iff_eq] at hp
    exact hFresh c hc hp.1
  refine ⟨hfind, ?_, ?_⟩
  · unfold findOrCreateConversation
    rw [hfind]
    simp only [insertConversation, hins]
    rfl
  refine ⟨{ id := newRowId db.nextId, org_id := orgId, contact_id := contactId
            assigned_agent_id := none, queue := none, status := "pending"
            is_bot_active := false, current_flow_id := none, tags := []
            classification := none
            protocol_number := some (generateProtocolNumber env.utcDate env.rand)
            last_message_at := some env.now, last_message_preview := none
            unread_count := 0, created_at := env.now, updated_at := env.now }, ?_, rfl, rfl, rfl, ?_⟩
  · unfold findOrCreateConversation
    rw [hfind]
    simp only [insertConversation, hins]
    rfl
  · intro old hold p hp hcontra
    have : p = generateProtocolNumber env.utcDate env.rand := by
      simpa using hcontra.symm
    exact hFresh old hold (this ▸ hp)

def c7OldConv : ConversationRow :=
  { id := "row-0", org_id := "org1", contact_id := "ct1"
    assigned_agent_id := none, queue := none, status := "resolved"
    is_bot_active := false, current_flow_id := none, tags := []
    classification := none, protocol_number := some "20250101-00001"
    last_message_at := none, last_message_preview := none, unread_count := 0
    created_at := 50, updated_at := 60 }

def c7Db : DB := { DB.empty with conversations := [c7OldConv], nextId := 1 }

def c7Env : WebhookEnv :=
  { now := 500, utcDate := "20250102", rand := 3, envAccessToken := none, mediaResult := none }

/-- C7 counterexample: at a concrete all-terminal input, conversation
resolution does create a fresh conversation (a second, pending row appears),
yet the protocol log stays empty — no `conversation_created` entry is ever
written, because `crm_protocol_log` lacks the `action` and `details` columns
the insert carries and the handler ignores the rejection. -/
theorem fresh_conversation_no_log_entry :
    c7Db.protocolLog = [] ∧
    (findOrCreateConversation c7Db "org1" "ct1" c7Env).1.conversations.map
      (fun c => c.status) = ["resolved", "pending"] ∧
    (findOrCreateConversation c7Db "org1" "ct1" c7Env).1.protocolLog = [] := by
  decide

/-- C7 witness: a contact whose only conversation is resolved gets a fresh
pending conversation with a new, distinct protocol number, and the protocol
log is unchanged. -/
theorem fresh_conversation_after_terminal_witness :
    (∀ c ∈ c7Db.conversations, c.org_id = "org1" → c.contact_id = "ct1" →
      c.status = "resolved" ∨ c.status = "closed") ∧
    (∀ c ∈ c7Db.conversations,
      c.protocol_number ≠ some (generateProtocolNumber c7Env.utcDate c7Env.rand)) ∧
    (latestActiveConversation c7Db "org1" "ct1" = none ∧
      (findOrCreateConversation c7Db "org1" "ct1" c7Env).1.protocolLog = c7Db.protocolLog ∧
      ∃ conv : ConversationRow,
        findOrCreateConversation c7Db "org1" "ct1" c7Env =
          ({ c7Db with
              conversations := c7Db.conversations ++ [conv]
              nextId := c7Db.nextId + 1 }, Except.ok conv) ∧
        conv.status = "pending" ∧
        conv.assigned_agent_id = none ∧
        conv.protocol_number = some (generateProtocolNumber c7Env.utcDate c7Env.rand) ∧
        (∀ old ∈ c7Db.conversations, ∀ p, old.protocol_number = some p →
          conv.protocol_number ≠ some p)) :=
  ⟨by decide, by decide,
    fresh_conversation_after_terminal c7Db "org1" "ct1" c7Env (by decide) (by decide)⟩

-- ---------------------------------------------------------------------------
-- Properties of the assignment selection
-- ---------------------------------------------------------------------------

/-- Sort rank of the first comparator criterion: online first. -/
def agentRank (c : AgentCount) : Nat := if isOnline c.agent then 0 else 1

/-- The comparator orders by (rank, openCount) lexicographically. -/
theorem agentCompare_lt_iff (a b : AgentCount) :
    agentCompare a b < 0 ↔
      (agentRank a < agentRank b ∨ (agentRank a = agentRank b ∧ a.openCount < b.openCount)) := by
  unfold agentCompare agentRank
  by_cases ha : isOnline a.agent <;> by_cases hb : isOnline b.agent <;> simp [ha, hb]

theorem agentCompare_notLt_notLt (x b c : AgentCount)
    (h1 : ¬agentCompare x b < 0) (h2 : ¬agentCompare b c < 0) :
    ¬agentCompare x c < 0 := by
  rw [agentCompare_lt_iff] at h1 h2 ⊢
  omega

theorem agentCompare_lt_notLt (e b c : AgentCount)
    (h1 : agentCompare e b < 0) (h2 : ¬agentCompare e c < 0) :
    ¬agentCompare b c < 0 := by
  rw [agentCompare_lt_iff] at h1 h2 ⊢
  omega

/-- The accumulator step of `selectCandidate`. -/
def selectStep (acc : Option AgentCount) (c : AgentCount) : Option AgentCount :=
  match acc with
  | none => some c
  | some b => if agentCompare c b < 0 then some c else acc

theorem selectCandidate_eq_foldl (l : List AgentCount) :
    selectCandidate l = l.foldl selectStep none := by
  rfl

theorem selectStep_foldl_mem (l : List AgentCount) :
    ∀ (acc : Option AgentCount) (c : AgentCount),
      l.foldl selectStep acc = some c → c ∈ l ∨ acc = some c := by
  induction l with
  | nil => intro acc c h; right; exact h
  | cons e t ih =>
    intro acc c h
    simp only [List.foldl_cons] at h
    rcases ih (selectStep acc e) c h with hmem | hacc
    · exact Or.inl (List.mem_cons_of_mem _ hmem)
    · cases acc with
      | none =>
        left
        simp only [selectStep] at hacc
        exact (Option.some_inj.mp hacc) ▸ List.mem_cons_self e t
      | some b =>
        simp only [selectStep] at hacc
        by_cases hlt : agentCompare e b < 0
        · rw [if_pos hlt] at hacc
          exact Or.inl ((Option.some_inj.mp hacc) ▸ List.mem_cons_self e t)
        · rw [if_neg hlt] at hacc
          exact Or.inr hacc

theorem selectStep_foldl_min (l : List AgentCount) :
    ∀ (acc : Option AgentCount) (c : AgentCount),
      l.foldl selectStep acc = some c →
      (∀ x ∈ l, ¬agentCompare x c < 0) ∧
      (∀ b, acc = some b → ¬agentCompare b c < 0) := by
  induction l with
  | nil =>
    intro acc c h
    refine ⟨?_, ?_⟩
    · intro x hx
      cases hx
    intro b hb
    rw [hb] at h
    have : b = c := Option.some_inj.mp h
    subst this
    rw [agentCompare_lt_iff]
    omega
  | cons e t ih =>
    intro acc c h
    simp only [List.foldl_cons] at h
    obtain ⟨ht, hstep⟩ := ih (selectStep acc e) c h
    have hec : ¬agentCompare e c < 0 := by
      cases acc with
      | none => exact hstep e rfl
      | some b =>
        by_cases hlt : agentCompare e b < 0
        · exact hstep e (by simp [selectStep, hlt])
        · exact agentCompare_notLt_notLt e b c hlt (hstep b (by simp [selectStep, hlt]))
    refine ⟨?_, ?_⟩
    · intro x hx
      rcases List.mem_cons.mp hx with hx | hx
      · exact hx ▸ hec
      · exact ht x hx
    · intro b hb
      subst hb
      by_cases hlt : agentCompare e b < 0
      · exact agentCompare_lt_notLt e b c hlt hec
      · exact hstep b (by simp [selectStep, hlt])

theorem selectCandidate_mem (l : List AgentCount) (c : AgentCount)
    (h : selectCandidate l = some c) : c ∈ l := by
  rw [selectCandidate_eq_foldl] at h
  rcases selectStep_foldl_mem l none c h with hm | hm
  · exact hm
  · cases hm

theorem selectCandidate_min (l : List AgentCount) (c : AgentCount)
    (h : selectCandidate l = some c) : ∀ x ∈ l, ¬agentCompare x c < 0 := by
  rw [selectCandidate_eq_foldl] at h
  exact (selectStep_foldl_min l none c h).1

theorem agentCandidates_mem (db : DB) (orgId : String) (queue : Option String)
    (sel : AgentCount) (h : sel ∈ agentCandidates db orgId queue) :
    sel.openCount = openConversationCount db orgId sel.agent.id ∧
    sel.openCount < sel.agent.max_concurrent_chats := by
  unfold agentCandidates at h
  obtain ⟨a, _, ha⟩ := List.mem_filterMap.mp h
  by_cases hcap : a.max_concurrent_chats ≤ openConversationCount db orgId a.id
  · simp [hcap] at ha
  · simp only [hcap, if_neg, if_false] at ha
    have ha2 : (⟨a, openConversationCount db orgId a.id⟩ : AgentCount) = sel := by
      simpa using ha
    subst ha2
    refine ⟨rfl, ?_⟩
    show openConversationCount db orgId a.id < a.max_concurrent_chats
    omega

theorem assignAgent_eq_applyAssignment (db : DB) (orgId conversationId : String)
    (queue : Option String) (now : Nat) (sel : AgentCount)
    (h : selectedCandidate db orgId queue = some sel) :
    assignAgent db orgId conversationId queue now =
      applyAssignment db orgId conversationId sel now := by
  have hsel : selectCandidate (agentCandidates db orgId queue) = some sel := h
  have hcand : agentCandidates db orgId queue ≠ [] := by
    intro hnil
    rw [hnil] at hsel
    cases hsel
  have hpool : agentPool db orgId queue ≠ [] := by
    intro hnil
    apply hcand
    unfold agentCandidates
    rw [hnil]
    rfl
  have h1 : (agentPool db orgId queue).isEmpty = false := by
    rw [List.isEmpty_eq_false]
    exact hpool
  have h2 : (agentCandidates db orgId queue).isEmpty = false := by
    rw [List.isEmpty_eq_false]
    exact hcand
  simp only [assignAgent, h1, h2, hsel, Bool.false_eq_true, if_false]

theorem applyAssignment_conversations (db : DB) (orgId conversationId : String)
    (sel : AgentCount) (now : Nat) :
    (applyAssignment db orgId conversationId sel now).conversations =
      db.conversations.map (assignUpdate conversationId sel.agent.id now) :=
  rfl

/-- A map touching only rows with a given id raises a count by at most one
when row ids are unique. -/
theorem countP_map_le_succ (l : List ConversationRow) (f : ConversationRow → ConversationRow)
    (p : ConversationRow → Bool) (cid : String)
    (hf : ∀ c, c.id ≠ cid → f c = c)
    (hU : l.Pairwise (fun a b => a.id ≠ b.id)) :
    (l.map f).countP p ≤ l.countP p + 1 := by
  induction l with
  | nil => simp
  | cons x t ih =>
    rcases List.pairwise_cons.mp hU with ⟨hx, ht⟩
    by_cases hid : x.id = cid
    · have hmap : t.map f = t := by
        apply list_map_id_of_mem
        intro a ha
        apply hf
        intro hcontra
        exact hx a ha (hid.trans hcontra.symm)
      simp only [List.map_cons, hmap, List.countP_cons]
      by_cases hp1 : p (f x) = true
      · by_cases hp2 : p x = true <;> simp [hp1, hp2]
      · by_cases hp2 : p x = true <;> simp [hp1, hp2]
        omega
    · have hfx : f x = x := hf x hid
      simp only [List.map_cons, hfx, List.countP_cons]
      have h3 := ih ht
      by_cases hp2 : p x = true
      · rw [if_pos hp2]
        omega
      · rw [if_neg hp2]
        omega

/-- C4: the assignment engine computes for each candidate the open-conversation
count (conversations in {open, waiting} assigned to them) and excludes
candidates at or above `max_concurrent_chats`, so whenever a candidate is
selected their pre-assignment count is strictly below their cap and the
post-assignment count cannot exceed it — no assignment pushes an agent
strictly above `max_concurrent_chats`; and when no candidate survives the
filter, the store (in particular the status of the conversation and
`assigned_agent_id`) is left entirely unchanged. -/
theorem assignment_respects_capacity (db : DB) (orgId conversationId : String)
    (queue : Option String) (now : Nat)
    (hids : (db.conversations.map ConversationRow.id).Nodup) :
    (∀ sel, selectedCandidate db orgId queue = some sel →
      sel.openCount = openConversationCount db orgId sel.agent.id ∧
      openConversationCount db orgId sel.agent.id < sel.agent.max_concurrent_chats ∧
      openConversationCount (assignAgent db orgId conversationId queue now) orgId sel.agent.id
        ≤ sel.agent.max_concurrent_chats) ∧
    (selectedCandidate db orgId queue = none →
      assignAgent db orgId conversationId queue now = db) := by
  constructor
  · intro sel hsel
    have hmem := selectCandidate_mem _ _ hsel
    obtain ⟨hcount, hcap⟩ := agentCandidates_mem db orgId queue sel hmem
    refine ⟨hcount, by omega, ?_⟩
    rw [assignAgent_eq_applyAssignment db orgId conversationId queue now sel hsel]
    unfold openConversationCount
    rw [applyAssignment_conversations]
    have hP : db.conversations.Pairwise (fun a b => a.id ≠ b.id) := by
      have := List.pairwise_map.mp hids
      exact this
    have hle := countP_map_le_succ db.conversations
      (assignUpdate conversationId sel.agent.id now)
      (fun c => c.org_id == orgId && c.assigned_agent_id == some sel.agent.id
        && (c.status == "open" || c.status == "waiting"))
      conversationId
      (by
        intro c hc
        unfold assignUpdate
        rw [if_neg]
        simp [hc])
      hP
    have : db.conversations.countP (fun c =>
        c.org_id == orgId && c.assigned_agent_id == some sel.agent.id
        && (c.status == "open" || c.status == "waiting")) =
        openConversationCount db orgId sel.agent.id := rfl
    omega
  · intro hnone
    have hsel : selectCandidate (agentCandidates db orgId queue) = none := hnone
    unfold assignAgent
    by_cases h1 : (agentPool db orgId queue).isEmpty
    · simp [h1]
    · by_cases h2 : (agentCandidates db orgId queue).isEmpty
      · simp [h1, h2]
      · simp [h1, h2, hsel]

/-- A conversation in `open` status assigned to the given agent (shared by
the assignment witnesses). -/
def mkOpenConv (i : Nat) (agentId : String) : ConversationRow :=
  { id := "c" ++ toString i, org_id := "org1", contact_id := "cx"
    assigned_agent_id := some agentId, queue := none, status := "open"
    is_bot_active := false, current_flow_id := none, tags := []
    classification := none, protocol_number := none, last_message_at := none
    last_message_preview := none, unread_count := 0, created_at := 0, updated_at := 0 }

/-- An unassigned pending conversation (the assignment target). -/
def pendingConv (cid : String) : ConversationRow :=
  { id := cid, org_id := "org1", contact_id := "cy"
    assigned_agent_id := none, queue := none, status := "pending"
    is_bot_active := false, current_flow_id := none, tags := []
    classification := none, protocol_number := some "20250101-00009"
    last_message_at := none, last_message_preview := none, unread_count := 0
    created_at := 1, updated_at := 1 }

def c4Agent : CrmUserRow :=
  { id := "a1", org_id := "org1", display_name := "Ana", role := "agent"
    queue := "both", status := "online", max_concurrent_chats := 2 }

def c4Db : DB :=
  { DB.empty with
    users := [c4Agent]
    conversations := [pendingConv "cv9", mkOpenConv 1 "a1"] }

/-- C4 witness: an online agent with one open conversation and a cap of two
is selected, their pre-assignment count is below the cap and the
post-assignment count does not exceed it. -/
theorem assignment_respects_capacity_witness :
    (c4Db.conversations.map ConversationRow.id).Nodup ∧
    ((∀ sel, selectedCandidate c4Db "org1" none = some sel →
      sel.openCount = openConversationCount c4Db "org1" sel.agent.id ∧
      openConversationCount c4Db "org1" sel.agent.id < sel.agent.max_concurrent_chats ∧
      openConversationCount (assignAgent c4Db "org1" "cv9" none 777) "org1" sel.agent.id
        ≤ sel.agent.max_concurrent_chats) ∧
    (selectedCandidate c4Db "org1" none = none →
      assignAgent c4Db "org1" "cv9" none 777 = c4Db)) ∧
    selectedCandidate c4Db "org1" none = some ⟨c4Agent, 1⟩ ∧
    openConversationCount (assignAgent c4Db "org1" "cv9" none 777) "org1" "a1" = 2 :=
  ⟨by decide, assignment_respects_capacity c4Db "org1" "cv9" none 777 (by decide),
    by decide, by decide⟩

/-- C5: whenever the candidate set is non-empty, the selected candidate is an
eligible candidate, is online whenever any candidate is online (online beats
away regardless of open counts), and carries the smallest open count among
candidates of the same online status; the selected agent is written to
`assigned_agent_id` of the target conversation with its status flipped to
`open`. -/
theorem assignment_preference_ordering (db : DB) (orgId conversationId : String)
    (queue : Option String) (now : Nat) (sel : AgentCount)
    (h : selectedCandidate db orgId queue = some sel) :
    sel ∈ agentCandidates db orgId queue ∧
    (∀ c ∈ agentCandidates db orgId queue, isOnline c.agent = true →
      isOnline sel.agent = true) ∧
    (∀ c ∈ agentCandidates db orgId queue, isOnline c.agent = isOnline sel.agent →
      sel.openCount ≤ c.openCount) ∧
    (assignAgent db orgId conversationId queue now).conversations =
      db.conversations.map (assignUpdate conversationId sel.agent.id now) ∧
    (∀ c ∈ (assignAgent db orgId conversationId queue now).conversations,
      c.id = conversationId →
        c.assigned_agent_id = some sel.agent.id ∧ c.status = "open") := by
  have hmem := selectCandidate_mem _ _ h
  have hmin := selectCandidate_min _ _ h
  have hconvs : (assignAgent db orgId conversationId queue now).conversations =
      db.conversations.map (assignUpdate conversationId sel.agent.id now) := by
    rw [assignAgent_eq_applyAssignment db orgId conversationId queue now sel h]
    exact applyAssignment_conversations db orgId conversationId sel now
  refine ⟨hmem, ?_, ?_, hconvs, ?_⟩
  · intro c hc hon
    by_contra hoff
    apply hmin c hc
    rw [agentCompare_lt_iff]
    left
    have hoff2 : isOnline sel.agent = false := by
      revert hoff
      cases isOnline sel.agent <;> simp
    simp [agentRank, hon, hoff2]
  · intro c hc hsame
    by_contra hlt
    push_neg at hlt
    apply hmin c hc
    rw [agentCompare_lt_iff]
    right
    constructor
    · unfold agentRank
      rw [hsame]
    · exact hlt
  · intro c hc hcid
    rw [hconvs] at hc
    obtain ⟨c0, hc0, hfc⟩ := List.mem_map.mp hc
    unfold assignUpdate at hfc
    by_cases hid : (c0.id == conversationId) = true
    · rw [if_pos hid] at hfc
      subst hfc
      exact ⟨rfl, rfl⟩
    · rw [if_neg (by simpa using hid)] at hfc
      subst hfc
      exact absurd (by simpa using hcid) (by simpa using hid)

def c5Away : CrmUserRow :=
  { id := "away1", org_id := "org1", display_name := "Bea", role := "agent"
    queue := "both", status := "away", max_concurrent_chats := 10 }

def c5Onl : CrmUserRow :=
  { id := "onl1", org_id := "org1", display_name := "Cid", role := "agent"
    queue := "both", status := "online", max_concurrent_chats := 10 }

/-- The away agent (2 open conversations) is listed before the online agent
(5 open conversations), so list order alone would pick the away agent. -/
def c5Db : DB :=
  { DB.empty with
    users := [c5Away, c5Onl]
    conversations := pendingConv "cv9" ::
      ((List.range 2).map (fun i => mkOpenConv i "away1") ++
       (List.range 5).map (fun i => mkOpenConv (10 + i) "onl1")) }

/-- C5 witness: given candidates [{status: away, open: 2}, {status: online,
open: 5}], the online-but-busier agent is selected over the away-but-freer
one, and is written to the conversation with status `open`. -/
theorem assignment_preference_ordering_witness :
    agentCandidates c5Db "org1" none = [⟨c5Away, 2⟩, ⟨c5Onl, 5⟩] ∧
    selectedCandidate c5Db "org1" none = some ⟨c5Onl, 5⟩ ∧
    ((⟨c5Onl, 5⟩ : AgentCount) ∈ agentCandidates c5Db "org1" none ∧
      (∀ c ∈ agentCandidates c5Db "org1" none, isOnline c.agent = true →
        isOnline (⟨c5Onl, 5⟩ : AgentCount).agent = true) ∧
      (∀ c ∈ agentCandidates c5Db "org1" none,
        isOnline c.agent = isOnline (⟨c5Onl, 5⟩ : AgentCount).agent →
        (⟨c5Onl, 5⟩ : AgentCount).openCount ≤ c.openCount) ∧
      (assignAgent c5Db "org1" "cv9" none 999).conversations =
        c5Db.conversations.map (assignUpdate "cv9" "onl1" 999) ∧
      (∀ c ∈ (assignAgent c5Db "org1" "cv9" none 999).conversations,
        c.id = "cv9" → c.assigned_agent_id = some "onl1" ∧ c.status = "open")) ∧
    ((assignAgent c5Db "org1" "cv9" none 999).conversations.find?
        (fun c => c.id == "cv9")).map (fun c => (c.assigned_agent_id, c.status)) =
      some (some "onl1", "open") :=
  ⟨by decide, by decide,
    assignment_preference_ordering c5Db "org1" "cv9" none 999 ⟨c5Onl, 5⟩ (by decide),
    by decide⟩

-- ---------------------------------------------------------------------------
-- The inbound message insert against the real schema (C1, C10)
-- ---------------------------------------------------------------------------

/-- Number of stored message rows carrying the given provider id. -/
def waCountById (db : DB) (w : String) : Nat :=
  db.messages.countP (fun m => m.whatsapp_message_id == some w)

def c1Org : OrganizationRow :=
  { org_id := "org1", name := "Destino", whatsapp_phone_number_id := some "pn1"
    whatsapp_access_token := some "tok", auto_reply_message := some "We will reply soon" }

def c1Msg : WAMessageObj :=
  { id := "wamid.1", from_ := "+5511999990000", timestamp := 100, type := "text"
    text := some { body := some "Hello" }, image := none, audio := none, video := none
    document := none, sticker := none, location := none, reaction := none }

def c1Env : WebhookEnv :=
  { now := 1000, utcDate := "20261012", rand := 7, envAccessToken := none, mediaResult := none }

def c1Agent : CrmUserRow :=
  { id := "a1", org_id := "org1", display_name := "Ana", role := "agent"
    queue := "both", status := "online", max_concurrent_chats := 5 }

def c1St0 : PipelineState := { db := { DB.empty with users := [c1Agent] }, actions := [] }

/-- The pipeline state after the first delivery of the payload. -/
def c1St1 : PipelineState := processIncomingMessage c1Env c1Org c1Msg none "pn1" c1St0

/-- C1: evaluation of the pipeline at the failing input. The first run mints
the contact id `row-0`, which is no `crm_users` id, so the step-5 message
insert violates the `crm_messages.sender_id → crm_users(id)` foreign key and
the run returns at step 5: no message row is stored, no provider call is
made, and the conversation stays pending and unassigned. The duplicate-catch
path the claim describes is therefore never the operative one: running the
identical payload twice stores zero rows — not exactly one — and performs
zero assignments. -/
theorem ingestion_stores_nothing_sender_fk :
    c1St1.db.contacts.map ContactRow.id = ["row-0"] ∧
    c1St1.db.users.map CrmUserRow.id = ["a1"] ∧
    c1St1.db.messages = [] ∧
    c1St1.actions = [] ∧
    c1St1.db.conversations.map (fun c => (c.status, c.assigned_agent_id)) =
      [("pending", none)] ∧
    (processIncomingMessage c1Env c1Org c1Msg none "pn1" c1St1).db.messages = [] ∧
    waCountById (processIncomingMessage c1Env c1Org c1Msg none "pn1" c1St1).db c1Msg.id = 0 ∧
    (processIncomingMessage c1Env c1Org c1Msg none "pn1" c1St1).db.conversations.map
      (fun c => (c.status, c.assigned_agent_id)) = [("pending", none)] := by
  decide

-- ---------------------------------------------------------------------------
-- The auto-reply gate (C10)
-- ---------------------------------------------------------------------------

/-- The gate of the auto-reply step as the pipeline run reaches it: contact
and conversation resolution succeed, the fetched conversation is `pending`
with no active bot, the org has a truthy auto-reply message, credentials are
configured, and the message insert succeeds — its provider id is not yet
stored and its sender id (the contact id) satisfies the
`sender_id → crm_users(id)` foreign key, i.e. coincides with some user id.
All conversation conditions are read off the row as fetched at the start of
the run, not off the store as later mutated. -/
def autoReplyPreconds (env : WebhookEnv) (org : OrganizationRow) (message : WAMessageObj)
    (contacts : Option (List WAContact)) (st : PipelineState) : Bool :=
  match upsertContactAt st.db st.db org.org_id message.from_
      (senderNameOf contacts message.from_) none env.now with
  | (db1, Except.ok contact) =>
    match findOrCreateConversation db1 org.org_id contact.id env with
    | (db2, Except.ok conversation) =>
      conversation.status == "pending" && !conversation.is_bot_active
      && jsTruthy org.auto_reply_message
      && jsTruthy (jsOr org.whatsapp_access_token env.envAccessToken)
      && !(db2.messages.any (fun m => m.whatsapp_message_id == some message.id))
      && db2.users.any (fun u => u.id == contact.id)
    | _ => false
  | _ => false

/-- C10 (amended): the auto-reply is gated on the conversation's status as
fetched at the start of the run — whenever the resolved conversation was
`pending` at fetch time (bot inactive, auto-reply message and credentials
configured) and the step-5 insert succeeds, the run attempts the auto-reply
send, regardless of whether the conversation was newly created and
regardless of the agent-assignment step having meanwhile flipped the stored
row to `open`. Insert success requires the sender foreign key to hold, i.e.
the contact id to coincide with a `crm_users` id — a coincidence the
pipeline never arranges, so on the migrated schema the send is in practice
never reached (see the counterexample). -/
theorem auto_reply_gated_on_fetched_status (env : WebhookEnv) (org : OrganizationRow)
    (message : WAMessageObj) (contacts : Option (List WAContact))
    (phoneNumberId : String) (st : PipelineState)
    (h : autoReplyPreconds env org message contacts st = true) :
    WAAction.sendText message.from_ (org.auto_reply_message.getD "") phoneNumberId
        ((jsOr org.whatsapp_access_token env.envAccessToken).getD "")
      ∈ (processIncomingMessage env org message contacts phoneNumberId st).actions := by
  unfold autoReplyPreconds at h
  simp only [processIncomingMessage]
  split
  · rename_i db1 e1 heq1
    rw [heq1] at h
    simp at h
  · rename_i db1 contact heq1
    rw [heq1] at h
    dsimp only at h
    split
    · rename_i db2 e2 heq2
      rw [heq2] at h
      simp at h
    · rename_i db2 conversation heq2
      rw [heq2] at h
      simp only [Bool.and_eq_true, Bool.not_eq_true] at h
      obtain ⟨⟨⟨⟨⟨hpend, hbot⟩, hreply⟩, htok⟩, hnodup⟩, hfk⟩ := h
      split
      · rename_i db3 e3 heq3
        simp only [insertMessage] at heq3
        split at heq3
        · rename_i hdup
          rw [hdup] at hnodup
          cases hnodup
        · split at heq3
          · rename_i hnofk
            rw [hfk] at hnofk
            cases hnofk
          · simp at heq3
      · rename_i db3 saved heq3
        have hbot2 : conversation.is_bot_active = false := by simpa using hbot
        simp only [hbot2, Bool.false_eq_true, if_false, hpend, hreply, htok,
          Bool.true_and, Bool.and_true, Bool.and_self, if_true]
        simp [List.mem_append]

/-- C10 counterexample: at the concrete first-message input, the resolved
conversation was `pending` at fetch time (and still is), the org has an
auto-reply message and credentials — yet the run issues no provider call at
all, the auto-reply included: the step-5 insert fails the
`sender_id → crm_users(id)` foreign key and the run returns before step 9. -/
theorem auto_reply_not_attempted_fk :
    jsTruthy c1Org.auto_reply_message = true ∧
    jsTruthy (jsOr c1Org.whatsapp_access_token c1Env.envAccessToken) = true ∧
    c1St1.db.conversations.map (fun c => (c.status, c.is_bot_active)) =
      [("pending", false)] ∧
    c1St1.actions = [] := by
  decide

/-- A pre-existing contact whose row id happens to coincide with the agent
id `a1`: the only kind of store state in which the message insert satisfies
the `sender_id → crm_users(id)` foreign key and step 5 can succeed. -/
def c10Contact : ContactRow :=
  { id := "a1", org_id := "org1", phone := "+5511999990000", name := some "Maria"
    profile_picture_url := none, created_at := 10, updated_at := 10 }

def c10St0 : PipelineState :=
  { db := { DB.empty with users := [c1Agent], contacts := [c10Contact], nextId := 1 }
    actions := [] }

/-- C10 witness: with the insert able to succeed, a first message creates a
pending conversation, the assignment step flips the stored row to `open` —
and the auto-reply send is still attempted, because the gate read the
`pending` status fetched at the start of the run. -/
theorem auto_reply_gated_on_fetched_status_witness :
    autoReplyPreconds c1Env c1Org c1Msg none c10St0 = true ∧
    WAAction.sendText c1Msg.from_ (c1Org.auto_reply_message.getD "") "pn1"
        ((jsOr c1Org.whatsapp_access_token c1Env.envAccessToken).getD "")
      ∈ (processIncomingMessage c1Env c1Org c1Msg none "pn1" c10St0).actions ∧
    (jsOr c1Org.whatsapp_access_token c1Env.envAccessToken).getD "" = "tok" ∧
    (processIncomingMessage c1Env c1Org c1Msg none "pn1" c10St0).db.conversations.map
      (fun c => (c.status, c.assigned_agent_id)) = [("open", some "a1")] :=
  ⟨by decide,
    auto_reply_gated_on_fetched_status c1Env c1Org c1Msg none "pn1" c10St0 (by decide),
    by decide, by decide⟩

end Crm
